import Mathlib

/-!
# Verification of `pex/pip/tool.py`

A shallow embedding of the parts of `src/pex/pip/tool.py` that the spec's
claims are about, together with theorems settling each claim.

Conventions:
* Python `Optional[str]` values become `Option String`; Python truthiness of
  an optional string (`None` and `""` are falsy) is the `strTruthy` helper.
* Python generators that yield argv fragments become functions returning
  `List String`.
* Raising an exception before spawning a subprocess is modelled by returning
  `Except.error`; a successfully spawned process is an `Except.ok` payload.
* Helpers of this repository that live outside `src/` (e.g. the
  `ErrorAnalysis` data type of `pex/pip/log_analyzer.py`, the `Job` finalizer
  protocol of `pex/jobs.py`, and `ENV.strip().patch(...)` of
  `pex/variables.py`) are modelled from the spec and carry a doc comment
  saying so.
-/

/-- Python truthiness of an optional string: `None` and the empty string are
falsy, any other string is truthy. -/
def strTruthy : Option String → Bool
  | none => false
  | some s => s ≠ ""

/-- `listStartsWith p l` is true when `p` is an initial segment of `l`. -/
def listStartsWith : List Char → List Char → Bool
  | [], _ => true
  | _ :: _, [] => false
  | p :: ps, c :: cs => p = c && listStartsWith ps cs

/-- Split `l` around the first occurrence of `marker`, returning the text
before it and the text after it, or `none` when `marker` does not occur. -/
def breakOnMarker (marker : List Char) : List Char → Option (List Char × List Char)
  | [] => none
  | c :: cs =>
    if listStartsWith marker (c :: cs) then some ([], (c :: cs).drop marker.length)
    else
      match breakOnMarker marker cs with
      | some (b, a) => some (c :: b, a)
      | none => none

/-- Model of `urllib.parse.urlparse(url).scheme` for the `scheme://netloc/...`
URL shapes handled by `tool.py`: the text before the first `"://"`, or `""`
when there is none. -/
def urlScheme (url : String) : String :=
  match breakOnMarker "://".data url.data with
  | some (b, _) => String.mk b
  | none => ""

/-- Model of `urllib.parse.urlparse(url).netloc` for `scheme://netloc/...`
URL shapes: the text between `"://"` and the next `"/"`. -/
def urlNetloc (url : String) : String :=
  match breakOnMarker "://".data url.data with
  | some (_, a) => String.mk (a.takeWhile (· ≠ '/'))
  | none => ""

/-- Model of `NetworkConfiguration` (`pex/network_configuration.py`, fields as
used by `tool.py`).  The numeric defaults play no role in any theorem below. -/
structure NetworkConfiguration where
  proxy : Option String := none
  cert : Option String := none
  client_cert : Option String := none
  retries : Nat := 5
  timeout : Nat := 10
deriving Repr, DecidableEq

/-- The `NetworkConfiguration()` default used by `network_configuration or
NetworkConfiguration()`. -/
def NetworkConfiguration.mkDefault : NetworkConfiguration := {}

/-- The trusted-host contribution of one URL, from the closure
`maybe_trust_insecure_host` in `PackageIndexConfiguration._calculate_args`:
the URL's netloc is appended to `trusted_hosts` exactly when the URL's scheme
is `"http"`. -/
def trustedOf (url : String) : List String :=
  if urlScheme url = "http" then [urlNetloc url] else []

/-- The full `trusted_hosts` list accumulated by
`PackageIndexConfiguration._calculate_args`: one `maybe_trust_insecure_host`
call per index URL (in order) and per find-links URL (in order). -/
def calculate_trusted_hosts (indexes : Option (List String))
    (find_links : Option (List String)) : List String :=
  (indexes.getD [] ++ find_links.getD []).flatMap trustedOf

/-- Embedding of `PackageIndexConfiguration._calculate_args` (tool.py:55-106).
`indexes = None` means accept pip index defaults, `[]` means turn off all
index use.  The generator's yields are concatenated in source order:
index args, find-links args, trusted-host args, then retries and timeout. -/
def calculate_args (indexes : Option (List String))
    (find_links : Option (List String))
    (network_configuration : Option NetworkConfiguration) : List String :=
  let index_args : List String :=
    match indexes with
    | none => []
    | some [] => ["--no-index"]
    | some (first :: rest) =>
      ["--index-url", first] ++ rest.flatMap (fun u => ["--extra-index-url", u])
  let find_links_args : List String :=
    (find_links.getD []).flatMap (fun u => ["--find-links", u])
  let trusted_host_args : List String :=
    (calculate_trusted_hosts indexes find_links).flatMap
      (fun h => ["--trusted-host", h])
  let nc := network_configuration.getD NetworkConfiguration.mkDefault
  index_args ++ find_links_args ++ trusted_host_args
    ++ ["--retries", toString nc.retries, "--timeout", toString nc.timeout]

/-- Embedding of `PackageIndexConfiguration._calculate_env` (tool.py:108-131).
`abspath` abstracts `os.path.abspath`.  The generator yields
`http_proxy`/`https_proxy` when a proxy is configured, then the certificate
bundle under `REQUESTS_CA_BUNDLE` (isolated) or `PIP_CERT` (not isolated),
then `PIP_CLIENT_CERT`.  The `assert not isolated` guarding the client-cert
branch is modelled by returning `none` when it would fail. -/
def calculate_env (abspath : String → String)
    (network_configuration : NetworkConfiguration) (isolated : Bool) :
    Option (List (String × String)) :=
  if strTruthy network_configuration.client_cert && isolated then
    none
  else
    some <|
      (if strTruthy network_configuration.proxy then
        [("http_proxy", network_configuration.proxy.getD ""),
         ("https_proxy", network_configuration.proxy.getD "")]
      else [])
      ++ (if strTruthy network_configuration.cert then
        [((if isolated then "REQUESTS_CA_BUNDLE" else "PIP_CERT"),
          abspath (network_configuration.cert.getD ""))]
      else [])
      ++ (if strTruthy network_configuration.client_cert then
        [("PIP_CLIENT_CERT", abspath (network_configuration.client_cert.getD ""))]
      else [])

/-- Model of `ResolverVersion.Value` (`pex/resolve/resolver_configuration.py`,
used by `tool.py` only through the two constants below). -/
inductive ResolverVersion where
  | PIP_LEGACY
  | PIP_2020
deriving Repr, DecidableEq

/-- Embedding of the `PackageIndexConfiguration` instance state
(tool.py:164-181).  `password_entries` and `pip_version` are omitted: no
claim mentions them and they do not feed any other embedded function. -/
structure PackageIndexConfiguration where
  resolver_version : ResolverVersion
  network_configuration : NetworkConfiguration
  args : List String
  env : List (String × String)
  isolated : Bool

/-- Embedding of `PackageIndexConfiguration.create` (tool.py:133-162).
`abspath` abstracts `os.path.abspath`; `resolver_version` is taken after the
`resolver_version or ResolverVersion.default(pip_version)` defaulting (that
default lives outside `src/`).  `isolated = not network_configuration.client_cert`,
so the `assert not isolated` inside `_calculate_env` can never fire here and
the `getD []` branch is dead. -/
def PackageIndexConfiguration.create (abspath : String → String)
    (resolver_version : ResolverVersion)
    (indexes : Option (List String)) (find_links : Option (List String))
    (network_configuration : Option NetworkConfiguration) :
    PackageIndexConfiguration :=
  let nc := network_configuration.getD NetworkConfiguration.mkDefault
  let isolated := !strTruthy nc.client_cert
  { resolver_version := resolver_version
    network_configuration := nc
    args := calculate_args indexes find_links (some nc)
    env := (calculate_env abspath nc isolated).getD []
    isolated := isolated }

/-- Modelled from the spec: `ErrorAnalysis` of `pex/pip/log_analyzer.py` (not
under `src/`) — "a variant: `Continue(optional ErrorMessage)` (analyzer
remains active; message, if present, is appended to that analyzer's
accumulated output) or `Complete(optional ErrorMessage)` (analyzer is
retired)".  An `ErrorMessage` is a text fragment, modelled as `String`. -/
inductive ErrorAnalysis where
  | Continue (msg : Option String)
  | Complete (msg : Option String)
deriving Repr, DecidableEq

/-- Does `line` match `re.match(r"^(?P<timestamp>[^ ]+) ERROR: Cannot install ", line)`?
If so, return the length of the `timestamp` group (the maximal leading run of
non-space characters, which must be followed by the literal marker). -/
def matchCannotInstall (line : String) : Option Nat :=
  let ts := line.data.takeWhile (· ≠ ' ')
  if ts.length > 0 &&
      listStartsWith " ERROR: Cannot install ".data (line.data.drop ts.length) then
    some ts.length
  else
    none

/-- Does `line` match `re.match(r"^[^ ]+ ERROR: ResolutionImpossible: ", line)`? -/
def matchResolutionImpossible (line : String) : Bool :=
  let ts := line.data.takeWhile (· ≠ ' ')
  ts.length > 0 &&
    listStartsWith " ERROR: ResolutionImpossible: ".data (line.data.drop ts.length)

/-- Embedding of `_Issue9420Analyzer.analyze` (tool.py:188-217).  The mutable
`_strip` attribute (default `None`) is passed and returned explicitly.
Python's `if not self._strip:` is true for `None` and for `0`, hence the
`getD 0 = 0` test.  `line[self._strip:]` drops `_strip` characters. -/
def issue9420_analyze (strip : Option Nat) (line : String) :
    Option Nat × ErrorAnalysis :=
  if (strip.getD 0) = 0 then
    match matchCannotInstall line with
    | some n => (some n, ErrorAnalysis.Continue none)
    | none => (strip, ErrorAnalysis.Continue none)
  else
    if matchResolutionImpossible line then
      (strip, ErrorAnalysis.Complete none)
    else
      (strip, ErrorAnalysis.Continue (some (String.mk (line.data.drop (strip.getD 0)))))

/-- Modelled from the spec: the accumulation discipline of
`pex/pip/log_analyzer.py` (not under `src/`) — each line is delivered, in
file order, to an analyzer still active; a `Continue` message is appended to
the analyzer's accumulated output; on `Complete` the analyzer is retired and
receives no further lines.  Returns the accumulated messages of a run of
`_Issue9420Analyzer` over `lines` starting from state `strip`. -/
def issue9420_run (strip : Option Nat) : List String → List String
  | [] => []
  | line :: rest =>
    match issue9420_analyze strip line with
    | (strip', ErrorAnalysis.Continue none) => issue9420_run strip' rest
    | (strip', ErrorAnalysis.Continue (some m)) => m :: issue9420_run strip' rest
    | (_, ErrorAnalysis.Complete none) => []
    | (_, ErrorAnalysis.Complete (some m)) => [m]

/-- The record-fixup work performed by the wheel-install finalizer.  A
`fixupRecord` value stands for the
`Record.from_prefix_install(...).fixup_install(...)` call of tool.py:676-681. -/
inductive InstallFixup where
  | fixupRecord (install_dir : String) (project_name : String) (version : String)
deriving Repr, DecidableEq

/-- Embedding of the `fixup_install` finalizer closure defined inside
`Pip.spawn_install_wheel` (tool.py:673-681): on a nonzero return code it
returns immediately, performing no work; on return code 0 it performs the
record fixup.  The list of `InstallFixup` values is the work performed. -/
def fixup_install (install_dir : String) (project_name : String)
    (version : String) (returncode : Int) : List InstallFixup :=
  if returncode ≠ 0 then []
  else [InstallFixup.fixupRecord install_dir project_name version]

/-- Modelled from the spec: the `Job` finalizer protocol of `pex/jobs.py`
(not under `src/`) — "a Job's finalizer runs at most once, strictly after
process exit", "finalizer execution is still expected to run" for every exit
code, receiving that exit code.  Returns the work the finalizer performs. -/
def job_run_finalizer (finalizer : Option (Int → List InstallFixup))
    (exit_code : Int) : List InstallFixup :=
  match finalizer with
  | some f => f exit_code
  | none => []

/-- Embedding of `Pip._calculate_resolver_version` (tool.py:238-245):
the configuration's resolver version when a `PackageIndexConfiguration` is
given, else `ResolverVersion.default()` (which lives outside `src/` and is
passed in as `default_resolver`). -/
def calculate_resolver_version (pic : Option PackageIndexConfiguration)
    (default_resolver : ResolverVersion) : ResolverVersion :=
  match pic with
  | some c => c.resolver_version
  | none => default_resolver

/-- Embedding of `Pip._calculate_resolver_version_args` (tool.py:247-267):
emit a resolver-version flag only when the requested version is not the
default for the interpreter's major version. -/
def calculate_resolver_version_args (interpreter_major : Nat)
    (pic : Option PackageIndexConfiguration)
    (default_resolver : ResolverVersion) : List String :=
  let rv := calculate_resolver_version pic default_resolver
  if rv = ResolverVersion.PIP_2020 ∧ interpreter_major = 2 then
    ["--use-feature", "2020-resolver"]
  else if rv = ResolverVersion.PIP_LEGACY ∧ interpreter_major = 3 then
    ["--use-deprecated", "legacy-resolver"]
  else []

/-- The verbosity argument of `Pip._spawn_pip_isolated` (tool.py:306-312):
`pip_verbosity or ENV.PEX_VERBOSE // 3` v's, or `-q` when that is zero. -/
def verbosity_arg (pip_verbosity : Nat) (pex_verbose : Nat) : String :=
  let v := if pip_verbosity = 0 then pex_verbose / 3 else pip_verbosity
  if v > 0 then "-" ++ String.mk (List.replicate v 'v') else "-q"

/-- Embedding of the pip command assembled by `Pip._spawn_pip_isolated`
(tool.py:269-322): the fixed flags, the resolver-version args, `--isolated`
when there is no package index configuration or it is isolated, the
verbosity flag, the cache directory, the caller's subcommand args and
finally the package index configuration args.  (The surrounding `pip.pex`
venv execute args prepended at tool.py:362 are outside this command.) -/
def spawn_pip_isolated_command (args : List String)
    (pic : Option PackageIndexConfiguration)
    (default_resolver : ResolverVersion)
    (interpreter_major : Nat) (pip_verbosity : Nat) (pex_verbose : Nat)
    (pip_cache : String) : List String :=
  ["--disable-pip-version-check", "--no-python-version-warning",
   "--exists-action", "a", "--no-input"]
  ++ calculate_resolver_version_args interpreter_major pic default_resolver
  ++ (if (match pic with | none => true | some c => c.isolated) then
        ["--isolated"]
      else [])
  ++ [verbosity_arg pip_verbosity pex_verbose]
  ++ ["--cache-dir", pip_cache]
  ++ args
  ++ (match pic with | some c => c.args | none => [])

/-- Modelled from the spec: `ENV.strip()` of `pex/variables.py` (not under
`src/`) — suppression of ambient configuration is a pointwise filtering of
the inherited environment by a key predicate (`isStripped`), per the design
note "require the isolation builder to accept the inherited environment as an
explicit input value".  Environments are maps `String → Option String`. -/
def stripAmbientEnv (isStripped : String → Bool)
    (ambient : String → Option String) : String → Option String :=
  fun k => if isStripped k then none else ambient k

/-- Modelled from the spec: `.patch(...)` of `pex/variables.py` (not under
`src/`) — pointwise override of an environment by a list of key/value
updates (later updates win). -/
def patchEnv (env : String → Option String)
    (updates : List (String × String)) : String → Option String :=
  fun k =>
    match (updates.reverse.find? (fun kv => kv.1 = k)) with
    | some kv => some kv.2
    | none => env k

/-- Embedding of the environment handed to the pip subprocess by
`Pip._spawn_pip_isolated` (tool.py:337-349): the stripped ambient
environment, patched with `PEX_ROOT`, `PEX_VERBOSE`, `__PEX_UNVENDORED__`
and `extra_env` (which includes the package-index env and `TMPDIR`), and
then `env.pop("PYTHONPATH", None)`. -/
def spawn_pip_env (isStripped : String → Bool)
    (ambient : String → Option String)
    (pex_root : String) (pex_verbose : String)
    (extra_env : List (String × String)) : String → Option String :=
  fun k =>
    if k = "PYTHONPATH" then none
    else
      patchEnv (stripAmbientEnv isStripped ambient)
        ([("PEX_ROOT", pex_root), ("PEX_VERBOSE", pex_verbose),
          ("__PEX_UNVENDORED__", "1")] ++ extra_env) k

/-- Model of the `PatchSet` a `DownloadObserver` carries
(`pex/pip/download_observer.py`, consumed by `tool.py`): the code patches,
the extra env vars, and the result of `emit_patches` (an extra `sys.path`
entry when patch files were materialized; `emit_patches` itself performs
filesystem writes outside this model). -/
structure PatchSet where
  patches : List String := []
  env : List (String × String) := []
  emitted_sys_path : Option String := none

/-- Model of `DownloadObserver` (`pex/pip/download_observer.py`, consumed by
`tool.py`): an optional log analyzer (identified by name) plus a patch set. -/
structure DownloadObserver where
  analyzer : Option String := none
  patch_set : PatchSet := {}

/-- The guard of tool.py:462-472: a foreign-platform observer with a
non-empty patch set together with a caller observer with a non-empty patch
set (Python truthiness of the `patches` tuple). -/
def bothPatched (fpo obs : Option DownloadObserver) : Bool :=
  match fpo, obs with
  | some f, some o => !f.patch_set.patches.isEmpty && !o.patch_set.patches.isEmpty
  | _, _ => false

/-- Does an optional observer contribute a log analyzer
(`if obs: if obs.analyzer:` in tool.py:476-479)? -/
def observerHasAnalyzer : Option DownloadObserver → Bool
  | some ob => ob.analyzer.isSome
  | none => false

/-- The `for obs in (foreign_platform_observer, observer):` loop of
tool.py:474-483: collect, over both observers in order, the analyzers, the
patch-set env updates, and the truthy `emit_patches` results. -/
def observer_contributions (fpo obs : Option DownloadObserver) :
    List String × List (String × String) × List String :=
  [fpo, obs].foldl
    (fun acc o =>
      match o with
      | none => acc
      | some ob =>
        (acc.1 ++ ob.analyzer.toList,
         acc.2.1 ++ ob.patch_set.env,
         acc.2.2 ++
           (match ob.patch_set.emitted_sys_path with
            | some s => if s ≠ "" then [s] else []
            | none => [])))
    ([], [], [])

/-- The `ValueError`s `Pip.spawn_download_distributions` raises before any
subprocess is spawned (the spec's ConfigurationError kind). -/
inductive PipSpawnError where
  | valueError (msg : String)
deriving Repr, DecidableEq

/-- The job returned by `Pip.spawn_download_distributions`: a `LogScrapeJob`
(tool.py:560-562) owning a `--log` file and its analyzers, or a plain `Job`
(tool.py:564) with no log file. -/
inductive DownloadJob where
  | plain (command : List String) (extra_env : List (String × String))
  | logScrape (command : List String) (extra_env : List (String × String))
      (log : String) (log_analyzers : List String) (preserve_log : Bool)

/-- The inputs of `Pip.spawn_download_distributions` (tool.py:393-410),
together with the ambient values the body reads: `target_is_local` and
`interpreter_major` stand for the resolved `target`;
`foreign_platform_observer` for `foreign_platform.patch(target)`;
`default_resolver` for `ResolverVersion.default()`; `sys_path_joined` for
`os.pathsep.join(sys.path)`; `tmpdir` for the `mkdtemp`/`safe_mkdtemp`
result; `pex_verbose` for `ENV.PEX_VERBOSE`; `pip_cache` for
`self._pip_cache`. -/
structure DownloadRequest where
  download_dir : String := "/downloads"
  requirements : List String := []
  requirement_files : List String := []
  constraint_files : List String := []
  allow_prereleases : Bool := false
  transitive : Bool := true
  target_is_local : Bool := true
  foreign_platform_observer : Option DownloadObserver := none
  package_index_configuration : Option PackageIndexConfiguration := none
  build : Bool := true
  use_wheel : Bool := true
  prefer_older_binary : Bool := false
  use_pep517 : Option Bool := none
  build_isolation : Bool := true
  observer : Option DownloadObserver := none
  preserve_log : Bool := false
  default_resolver : ResolverVersion := ResolverVersion.PIP_2020
  interpreter_major : Nat := 3
  sys_path_joined : String := ""
  tmpdir : String := "/tmp/pex-pip-log.0"
  pex_verbose : Nat := 0
  pip_cache : String := "/pex_root/pip_cache"

/-- The index-selection flags `_calculate_args` can emit (tool.py:79-89). -/
def index_flags : List String := ["--no-index", "--index-url", "--extra-index-url"]

/-- The `log_analyzers` list of `Pip.spawn_download_distributions`
(tool.py:474-498): the observers' analyzers in order, plus an
`_Issue9420Analyzer` exactly when the pip 2020 resolver is in play. -/
def active_log_analyzers (fpo obs : Option DownloadObserver)
    (pic : Option PackageIndexConfiguration)
    (default_resolver : ResolverVersion) : List String :=
  (observer_contributions fpo obs).1 ++
    (if calculate_resolver_version pic default_resolver = ResolverVersion.PIP_2020
     then ["_Issue9420Analyzer"]
     else [])

/-- The `download` subcommand argv assembled by
`Pip.spawn_download_distributions` (tool.py:426-460), before the `--log`
argument is optionally prepended. -/
def download_command (r : DownloadRequest) : List String :=
  ["download", "--dest", r.download_dir]
  ++ (if r.build = false then ["--only-binary", ":all:"] else [])
  ++ (if r.use_wheel = false then ["--no-binary", ":all:"] else [])
  ++ (if r.prefer_older_binary then ["--prefer-binary"] else [])
  ++ (match r.use_pep517 with
      | some true => ["--use-pep517"]
      | some false => ["--no-use-pep517"]
      | none => [])
  ++ (if r.build_isolation = false then ["--no-build-isolation"] else [])
  ++ (if r.allow_prereleases then ["--pre"] else [])
  ++ (if r.transitive = false then ["--no-deps"] else [])
  ++ r.requirement_files.flatMap (fun f => ["--requirement", f])
  ++ r.constraint_files.flatMap (fun f => ["--constraint", f])
  ++ r.requirements

/-- The `extra_env` updates accumulated by `Pip.spawn_download_distributions`
(tool.py:427-487): the PEP 517 backend path when build isolation is off, the
observers' patch-set env vars, and the patch package variables when any
patches were materialized. -/
def download_extra_env (r : DownloadRequest) : List (String × String) :=
  (if r.build_isolation = false then
    [("PEP517_BACKEND_PATH", r.sys_path_joined)]
  else [])
  ++ (observer_contributions r.foreign_platform_observer r.observer).2.1
  ++ (if (observer_contributions r.foreign_platform_observer r.observer).2.2.isEmpty
      then []
      else
        [("PEX_EXTRA_SYS_PATH", String.intercalate ":"
            (observer_contributions r.foreign_platform_observer r.observer).2.2),
         ("_PEX_PIP_RUNTIME_PATCHES_PACKAGE", "_pex_pip_patches")])

/-- Embedding of `Pip.spawn_download_distributions` (tool.py:393-564).
Follows the source's control flow: the `use_wheel`/`build` and
platform checks raise first; the `download` subcommand argv
(`download_command`) is assembled; the double-patch guard raises; observer
contributions and the `_Issue9420Analyzer` for the 2020 resolver form
`active_log_analyzers`; when any analyzer is active a `--log` argument is
prepended and a `LogScrapeJob` is returned, else a plain `Job`.  (The
`Tailer` started at `PEX_VERBOSE > 0` and the devnull stdout redirection
have no bearing on the returned job shape and are not modelled.) -/
def spawn_download_distributions (r : DownloadRequest) :
    Except PipSpawnError DownloadJob :=
  if r.use_wheel = false ∧ r.build = false then
    Except.error (PipSpawnError.valueError
      "Cannot both ignore wheels (use_wheel=False) and refrain from building distributions (build=False).")
  else if r.use_wheel = false ∧ r.target_is_local = false then
    Except.error (PipSpawnError.valueError
      "Cannot ignore wheels (use_wheel=False) when resolving for a platform.")
  else if bothPatched r.foreign_platform_observer r.observer then
    Except.error (PipSpawnError.valueError
      "Can only have one patch for Pip code.")
  else if (active_log_analyzers r.foreign_platform_observer r.observer
      r.package_index_configuration r.default_resolver).isEmpty then
    Except.ok (DownloadJob.plain
      (spawn_pip_isolated_command (download_command r)
        r.package_index_configuration r.default_resolver
        r.interpreter_major 0 r.pex_verbose r.pip_cache)
      (download_extra_env r))
  else
    Except.ok (DownloadJob.logScrape
      (spawn_pip_isolated_command
        (["--log", r.tmpdir ++ "/pip.log"] ++ download_command r)
        r.package_index_configuration r.default_resolver
        r.interpreter_major 0 r.pex_verbose r.pip_cache)
      (download_extra_env r) (r.tmpdir ++ "/pip.log")
      (active_log_analyzers r.foreign_platform_observer r.observer
        r.package_index_configuration r.default_resolver)
      r.preserve_log)

/-- The job returned for the default `DownloadRequest`: the 2020 resolver is
in play, so it is a `LogScrapeJob` with a `--log` argument. -/
def C10_job : DownloadJob :=
  DownloadJob.logScrape
    ["--disable-pip-version-check", "--no-python-version-warning",
     "--exists-action", "a", "--no-input", "--isolated", "-q",
     "--cache-dir", "/pex_root/pip_cache", "--log",
     "/tmp/pex-pip-log.0/pip.log", "download", "--dest", "/downloads"]
    [] "/tmp/pex-pip-log.0/pip.log" ["_Issue9420Analyzer"] false

theorem trustedOf_count (host : String) :
    ∀ l : List String, (l.flatMap trustedOf).count host =
      (l.filter (fun u => urlScheme u == "http" && urlNetloc u == host)).length
  | [] => rfl
  | u :: l => by
    rw [List.flatMap_cons, List.count_append, trustedOf_count host l]
    by_cases hs : urlScheme u = "http"
    · by_cases hn : urlNetloc u = host
      · simp [trustedOf, hs, hn, List.count_cons, Nat.add_comm]
      · simp [trustedOf, hs, hn, List.count_cons, List.count_nil]
    · simp [trustedOf, hs]

/-- C1 (counterexample): for indexes `["http://a/simple", "http://a/simple2"]`
the host `a` does NOT appear exactly once in the trusted-host list computed
by `PackageIndexConfiguration._calculate_args`; it appears twice. -/
theorem C1_counterexample :
    ¬ (calculate_trusted_hosts
        (some ["http://a/simple", "http://a/simple2"]) none).count "a" = 1 := by
  intro hc
  have h2 : (calculate_trusted_hosts
      (some ["http://a/simple", "http://a/simple2"]) none).count "a" = 2 := by rfl
  exact absurd (h2.symm.trans hc) (by decide)

/-- C1 (amended): each index or find-links URL with the insecure `http`
scheme appends its host to the trusted-host list once per URL, so a host
appears as many times as there are insecure URLs naming it (twice in the
spec's example), not exactly once. -/
theorem C1_theorem (indexes find_links : Option (List String)) (host : String) :
    (calculate_trusted_hosts indexes find_links).count host =
      ((indexes.getD [] ++ find_links.getD []).filter
        (fun u => urlScheme u == "http" && urlNetloc u == host)).length ∧
    (calculate_trusted_hosts
      (some ["http://a/simple", "http://a/simple2"]) none).count "a" = 2 := by
  exact ⟨trustedOf_count host _, by rfl⟩

/-- C2 (counterexample): on the spec's three lines, the accumulated messages
of `_Issue9420Analyzer` do not contain the body line with the `"T1 "` prefix
(timestamp plus trailing space) stripped: the emitted message keeps the
space, being the line with only the 2-character timestamp `"T1"` stripped. -/
theorem C2_counterexample :
    ¬ ("body..." ∈ issue9420_run none
        ["T1 ERROR: Cannot install X and Y...", "T1 body...",
         "T1 ERROR: ResolutionImpossible: ..."]) := by
  intro h
  rw [show issue9420_run none
      ["T1 ERROR: Cannot install X and Y...", "T1 body...",
       "T1 ERROR: ResolutionImpossible: ..."] = [" body..."] from rfl] at h
  rw [List.mem_singleton] at h
  exact absurd h (by decide)

/-- C2 (amended): the start-marker line teaches the analyzer the timestamp
length (2 for `"T1"`) and yields no message; every later line is `Continue`
carrying the line with that many leading characters stripped (so the space
after the timestamp is retained: `" body..."`), until the
ResolutionImpossible marker line, on which `analyze` returns `Complete` and
scanning stops; the accumulated messages of the spec's example are exactly
`[" body..."]`. -/
theorem C2_theorem :
    issue9420_run none
      ["T1 ERROR: Cannot install X and Y...", "T1 body...",
       "T1 ERROR: ResolutionImpossible: ..."] = [" body..."] ∧
    issue9420_analyze none "T1 ERROR: Cannot install X and Y..." =
      (some 2, ErrorAnalysis.Continue none) ∧
    issue9420_analyze (some 2) "T1 ERROR: ResolutionImpossible: ..." =
      (some 2, ErrorAnalysis.Complete none) ∧
    (∀ (n : Nat) (line : String), 0 < n →
      matchResolutionImpossible line = false →
      issue9420_analyze (some n) line =
        (some n, ErrorAnalysis.Continue (some (String.mk (line.data.drop n))))) := by
  refine ⟨by rfl, by rfl, by rfl, ?_⟩
  intro n line hn hri
  unfold issue9420_analyze
  rw [if_neg (by simpa using Nat.pos_iff_ne_zero.mp hn), if_neg (by simp [hri])]
  rfl

/-- Witness for C2: a concrete post-marker line is stripped of exactly the
learned 2-character timestamp. -/
theorem C2_witness :
    0 < 2 ∧ matchResolutionImpossible "T1 something" = false ∧
    issue9420_analyze (some 2) "T1 something" =
      (some 2, ErrorAnalysis.Continue (some " something")) :=
  ⟨by decide, by rfl, C2_theorem.2.2.2 2 "T1 something" (by decide) (by rfl)⟩

/-- C3 (counterexample): at exit code 1 the wheel-install finalizer performs
no record fixup at all, so the fixup work does not happen "regardless of the
process's exit status". -/
theorem C3_counterexample :
    fixup_install "/installs/proj" "proj" "1.0" 1 = [] ∧
    ¬ (InstallFixup.fixupRecord "/installs/proj" "proj" "1.0" ∈
        fixup_install "/installs/proj" "proj" "1.0" 1) := by
  refine ⟨by rfl, ?_⟩
  intro h
  rw [show fixup_install "/installs/proj" "proj" "1.0" 1 = [] from rfl] at h
  exact List.not_mem_nil _ h

/-- C3 (amended): the Job invokes the finalizer for every exit code (spec
model of `pex/jobs.py`), but the `fixup_install` finalizer of
`spawn_install_wheel` performs its record fixup only when the exit code is
0, returning immediately with no work for every nonzero exit. -/
theorem C3_theorem (install_dir project_name version : String) (rc : Int) :
    job_run_finalizer (some (fixup_install install_dir project_name version)) rc =
      (if rc = 0 then [InstallFixup.fixupRecord install_dir project_name version]
       else []) := by
  unfold job_run_finalizer fixup_install
  by_cases h : rc = 0 <;> simp [h]

/-- C4: requesting no wheels (`use_wheel=False`) together with no building
(`build=False`) makes `spawn_download_distributions` raise (return
`Except.error`, the spec's ConfigurationError) synchronously; no
`DownloadJob` — hence no subprocess — is ever produced. -/
theorem C4_theorem (r : DownloadRequest) (h1 : r.use_wheel = false)
    (h2 : r.build = false) :
    spawn_download_distributions r =
      Except.error (PipSpawnError.valueError
        "Cannot both ignore wheels (use_wheel=False) and refrain from building distributions (build=False).") := by
  unfold spawn_download_distributions
  rw [if_pos ⟨h1, h2⟩]

/-- Witness for C4 at a concrete request. -/
theorem C4_witness :
    ({ use_wheel := false, build := false } : DownloadRequest).use_wheel = false ∧
    ({ use_wheel := false, build := false } : DownloadRequest).build = false ∧
    spawn_download_distributions { use_wheel := false, build := false } =
      Except.error (PipSpawnError.valueError
        "Cannot both ignore wheels (use_wheel=False) and refrain from building distributions (build=False).") :=
  ⟨rfl, rfl, C4_theorem _ rfl rfl⟩

/-- C5: when both the foreign-platform observer and the caller-supplied
observer contribute code patches, `spawn_download_distributions` fails with
a configuration error (`Except.error`) before any process is spawned. -/
theorem C5_theorem (r : DownloadRequest) (f o : DownloadObserver)
    (hf : r.foreign_platform_observer = some f)
    (ho : r.observer = some o)
    (hfp : f.patch_set.patches ≠ [])
    (hop : o.patch_set.patches ≠ []) :
    ∃ e, spawn_download_distributions r = Except.error e := by
  unfold spawn_download_distributions
  by_cases h1 : r.use_wheel = false ∧ r.build = false
  · rw [if_pos h1]; exact ⟨_, rfl⟩
  · rw [if_neg h1]
    by_cases h2 : r.use_wheel = false ∧ r.target_is_local = false
    · rw [if_pos h2]; exact ⟨_, rfl⟩
    · rw [if_neg h2]
      have hb : bothPatched r.foreign_platform_observer r.observer = true := by
        rw [hf, ho]
        unfold bothPatched
        simp [List.isEmpty_iff, hfp, hop]
      rw [if_pos (by rw [hb])]
      exact ⟨_, rfl⟩

/-- Witness for C5 at a concrete request with two patching observers. -/
theorem C5_witness :
    ({ foreign_platform_observer := some { patch_set := { patches := ["fp"] } },
       observer := some { patch_set := { patches := ["ob"] } } } :
        DownloadRequest).foreign_platform_observer =
      some { patch_set := { patches := ["fp"] } } ∧
    ({ foreign_platform_observer := some { patch_set := { patches := ["fp"] } },
       observer := some { patch_set := { patches := ["ob"] } } } :
        DownloadRequest).observer = some { patch_set := { patches := ["ob"] } } ∧
    ({ patch_set := { patches := ["fp"] } } : DownloadObserver).patch_set.patches ≠ [] ∧
    ({ patch_set := { patches := ["ob"] } } : DownloadObserver).patch_set.patches ≠ [] ∧
    ∃ e,
      spawn_download_distributions
        { foreign_platform_observer := some { patch_set := { patches := ["fp"] } },
          observer := some { patch_set := { patches := ["ob"] } } } =
        Except.error e :=
  ⟨rfl, rfl, by simp, by simp,
    C5_theorem _ _ _ rfl rfl (by simp) (by simp)⟩

/-- C6: `_calculate_args` emits no index flag at all for `indexes=None`, and
for an explicitly empty index list emits `--no-index` and neither
`--index-url` nor `--extra-index-url`.  The hypotheses only rule out
find-links URLs, hosts or rendered numbers that are literally equal to one
of the index flags. -/
theorem C6_theorem (nc : NetworkConfiguration) (fl : Option (List String))
    (hfl : ∀ u ∈ fl.getD [], u ∉ index_flags ∧ urlNetloc u ∉ index_flags)
    (hr : toString nc.retries ∉ index_flags)
    (ht : toString nc.timeout ∉ index_flags) :
    (∀ f ∈ index_flags, f ∉ calculate_args none fl (some nc)) ∧
    "--no-index" ∈ calculate_args (some []) fl (some nc) ∧
    "--index-url" ∉ calculate_args (some []) fl (some nc) ∧
    "--extra-index-url" ∉ calculate_args (some []) fl (some nc) := by
  refine ⟨?_, ?_, ?_, ?_⟩
  · intro f hf hx
    simp [calculate_args, calculate_trusted_hosts, trustedOf, List.mem_append,
      List.mem_flatMap] at hx
    rcases hx with ⟨u, hu, hcase | hcase⟩ |
        ⟨a, ⟨u, hu, -, ha⟩, hcase | hcase⟩ | hcase | hcase | hcase | hcase
    · rw [hcase] at hf; exact absurd hf (by decide)
    · exact (hfl u hu).1 (hcase ▸ hf)
    · rw [hcase] at hf; exact absurd hf (by decide)
    · rw [hcase, ha] at hf; exact (hfl u hu).2 hf
    · rw [hcase] at hf; exact absurd hf (by decide)
    · exact hr (hcase ▸ hf)
    · rw [hcase] at hf; exact absurd hf (by decide)
    · exact ht (hcase ▸ hf)
  · simp [calculate_args]
  · intro hx
    simp [calculate_args, calculate_trusted_hosts, trustedOf, List.mem_append,
      List.mem_flatMap] at hx
    rcases hx with hu | ⟨a, hu, -, ha⟩ | hcase | hcase
    · exact (hfl _ hu).1 (by decide)
    · exact (hfl a hu).2 (by rw [← ha]; decide)
    · exact hr (by rw [← hcase]; decide)
    · exact ht (by rw [← hcase]; decide)
  · intro hx
    simp [calculate_args, calculate_trusted_hosts, trustedOf, List.mem_append,
      List.mem_flatMap] at hx
    rcases hx with hu | ⟨a, hu, -, ha⟩ | hcase | hcase
    · exact (hfl _ hu).1 (by decide)
    · exact (hfl a hu).2 (by rw [← ha]; decide)
    · exact hr (by rw [← hcase]; decide)
    · exact ht (by rw [← hcase]; decide)

/-- Witness for C6 with no find-links and the default network numbers. -/
theorem C6_witness :
    (∀ u ∈ (none : Option (List String)).getD [],
      u ∉ index_flags ∧ urlNetloc u ∉ index_flags) ∧
    toString NetworkConfiguration.mkDefault.retries ∉ index_flags ∧
    toString NetworkConfiguration.mkDefault.timeout ∉ index_flags ∧
    ((∀ f ∈ index_flags,
        f ∉ calculate_args none none (some NetworkConfiguration.mkDefault)) ∧
      "--no-index" ∈ calculate_args (some []) none (some NetworkConfiguration.mkDefault) ∧
      "--index-url" ∉ calculate_args (some []) none (some NetworkConfiguration.mkDefault) ∧
      "--extra-index-url" ∉
        calculate_args (some []) none (some NetworkConfiguration.mkDefault)) :=
  ⟨by simp, by decide, by decide,
    C6_theorem NetworkConfiguration.mkDefault none (by simp) (by decide) (by decide)⟩

theorem dash_v_ne_isolated (n : Nat) :
    ("-" ++ String.mk (List.replicate n 'v')) ≠ "--isolated" := by
  intro h
  have hd : '-' :: List.replicate n 'v' = "--isolated".data := congrArg String.data h
  rw [show "--isolated".data = ['-', '-', 'i', 's', 'o', 'l', 'a', 't', 'e', 'd']
    from rfl] at hd
  cases n with
  | zero => exact absurd hd (by decide)
  | succ k =>
    rw [List.replicate_succ] at hd
    injection hd with h1 h2
    injection h2 with h3 h4
    exact absurd h3 (by decide)

theorem verbosity_arg_ne_isolated (a b : Nat) : verbosity_arg a b ≠ "--isolated" := by
  unfold verbosity_arg
  by_cases hv : (if a = 0 then b / 3 else a) > 0
  · rw [if_pos hv]; exact dash_v_ne_isolated _
  · rw [if_neg hv]; decide

theorem isolated_notin_resolver_args (imaj : Nat)
    (pic : Option PackageIndexConfiguration) (d : ResolverVersion) :
    "--isolated" ∉ calculate_resolver_version_args imaj pic d := by
  unfold calculate_resolver_version_args
  set rv := calculate_resolver_version pic d with hrv
  by_cases h1 : rv = ResolverVersion.PIP_2020 ∧ imaj = 2
  · rw [if_pos h1]; decide
  · rw [if_neg h1]
    by_cases h2 : rv = ResolverVersion.PIP_LEGACY ∧ imaj = 3
    · rw [if_pos h2]; decide
    · rw [if_neg h2]; decide

/-- C7: a `PackageIndexConfiguration` created with a client certificate is
not isolated, the `--isolated` flag is absent from the pip command assembled
by `_spawn_pip_isolated`, and the client certificate travels as the
`PIP_CLIENT_CERT` environment variable; a configuration created without a
client certificate is isolated.  (The ∉ hypotheses only rule out caller args,
a cache path or index args literally equal to `"--isolated"`.) -/
theorem C7_theorem (abspath : String → String) (rv dflt : ResolverVersion)
    (indexes fl : Option (List String)) (nc : NetworkConfiguration)
    (args : List String) (imaj pipv pexv : Nat) (cache : String)
    (hcc : strTruthy nc.client_cert = true)
    (hargs : "--isolated" ∉ args)
    (hpic : "--isolated" ∉ calculate_args indexes fl (some nc))
    (hcache : cache ≠ "--isolated") :
    (PackageIndexConfiguration.create abspath rv indexes fl (some nc)).isolated
        = false ∧
    ("PIP_CLIENT_CERT", abspath (nc.client_cert.getD "")) ∈
      (PackageIndexConfiguration.create abspath rv indexes fl (some nc)).env ∧
    "--isolated" ∉
      spawn_pip_isolated_command args
        (some (PackageIndexConfiguration.create abspath rv indexes fl (some nc)))
        dflt imaj pipv pexv cache ∧
    (∀ nc2 : NetworkConfiguration, strTruthy nc2.client_cert = false →
      (PackageIndexConfiguration.create abspath rv indexes fl (some nc2)).isolated
        = true) := by
  have hiso :
      (PackageIndexConfiguration.create abspath rv indexes fl (some nc)).isolated
        = false := by
    simp [PackageIndexConfiguration.create, hcc]
  refine ⟨hiso, ?_, ?_, ?_⟩
  · simp [PackageIndexConfiguration.create, calculate_env, hcc]
  · intro hx
    unfold spawn_pip_isolated_command at hx
    rcases List.mem_append.mp hx with hx | hmem
    · rcases List.mem_append.mp hx with hx | hmem
      · rcases List.mem_append.mp hx with hx | hmem
        · rcases List.mem_append.mp hx with hx | hmem
          · rcases List.mem_append.mp hx with hx | hmem
            · rcases List.mem_append.mp hx with hmem | hmem
              · exact absurd hmem (by decide)
              · exact isolated_notin_resolver_args imaj _ dflt hmem
            · simp [hiso] at hmem
          · have h := List.mem_singleton.mp hmem
            exact verbosity_arg_ne_isolated pipv pexv h.symm
        · rcases List.mem_cons.mp hmem with h | h
          · exact absurd h (by decide)
          · exact hcache (List.mem_singleton.mp h).symm
      · exact hargs hmem
    · exact hpic hmem
  · intro nc2 h2
    simp [PackageIndexConfiguration.create, h2]

/-- Witness for C7 at a concrete client-cert configuration. -/
theorem C7_witness :
    strTruthy ({ client_cert := some "/certs/client.pem" } :
        NetworkConfiguration).client_cert = true ∧
    "--isolated" ∉ (["download"] : List String) ∧
    "--isolated" ∉ calculate_args none none
      (some { client_cert := some "/certs/client.pem" }) ∧
    ("/cache" : String) ≠ "--isolated" ∧
    ((PackageIndexConfiguration.create (fun s => s) ResolverVersion.PIP_2020
        none none (some { client_cert := some "/certs/client.pem" })).isolated
          = false ∧
      ("PIP_CLIENT_CERT", "/certs/client.pem") ∈
        (PackageIndexConfiguration.create (fun s => s) ResolverVersion.PIP_2020
          none none (some { client_cert := some "/certs/client.pem" })).env ∧
      "--isolated" ∉
        spawn_pip_isolated_command ["download"]
          (some (PackageIndexConfiguration.create (fun s => s)
            ResolverVersion.PIP_2020 none none
            (some { client_cert := some "/certs/client.pem" })))
          ResolverVersion.PIP_2020 3 0 0 "/cache" ∧
      (∀ nc2 : NetworkConfiguration, strTruthy nc2.client_cert = false →
        (PackageIndexConfiguration.create (fun s => s) ResolverVersion.PIP_2020
          none none (some nc2)).isolated = true)) :=
  ⟨by decide, by decide, by decide, by decide,
    C7_theorem (fun s => s) ResolverVersion.PIP_2020 ResolverVersion.PIP_2020
      none none { client_cert := some "/certs/client.pem" } ["download"] 3 0 0
      "/cache" (by decide) (by decide) (by decide) (by decide)⟩

/-- C8: proxy and certificate settings are conveyed by environment variables,
never argv: `_calculate_args` is unchanged under any change of the proxy,
cert and client-cert settings (it reads only retries and timeout), while any
environment produced by `_calculate_env` maps both `http_proxy` and
`https_proxy` to a configured proxy and maps `REQUESTS_CA_BUNDLE` (isolated)
or `PIP_CERT` (not isolated) to the absolutized configured cert bundle. -/
theorem C8_theorem (abspath : String → String)
    (indexes fl : Option (List String)) (nc nc2 : NetworkConfiguration)
    (isolated : Bool) (env : List (String × String))
    (hrt : nc.retries = nc2.retries) (hto : nc.timeout = nc2.timeout)
    (henv : calculate_env abspath nc isolated = some env) :
    calculate_args indexes fl (some nc) = calculate_args indexes fl (some nc2) ∧
    (strTruthy nc.proxy = true →
      ("http_proxy", nc.proxy.getD "") ∈ env ∧
      ("https_proxy", nc.proxy.getD "") ∈ env) ∧
    (strTruthy nc.cert = true →
      ((if isolated then "REQUESTS_CA_BUNDLE" else "PIP_CERT"),
        abspath (nc.cert.getD "")) ∈ env) := by
  unfold calculate_env at henv
  split at henv
  · exact absurd henv (by simp)
  · have hE := Option.some.inj henv
    subst hE
    refine ⟨by simp [calculate_args, hrt, hto], ?_, ?_⟩
    · intro hp
      constructor <;> simp [hp]
    · intro hc
      simp [hc]

/-- Witness for C8 at a concrete proxy plus cert-bundle configuration. -/
theorem C8_witness :
    ({ proxy := some "http://gateway:3128", cert := some "/certs/ca.pem" } :
        NetworkConfiguration).retries = NetworkConfiguration.mkDefault.retries ∧
    ({ proxy := some "http://gateway:3128", cert := some "/certs/ca.pem" } :
        NetworkConfiguration).timeout = NetworkConfiguration.mkDefault.timeout ∧
    calculate_env (fun s => s)
      { proxy := some "http://gateway:3128", cert := some "/certs/ca.pem" } true =
      some [("http_proxy", "http://gateway:3128"),
            ("https_proxy", "http://gateway:3128"),
            ("REQUESTS_CA_BUNDLE", "/certs/ca.pem")] ∧
    (calculate_args (some ["https://idx/simple"]) none
        (some { proxy := some "http://gateway:3128",
                cert := some "/certs/ca.pem" }) =
      calculate_args (some ["https://idx/simple"]) none
        (some NetworkConfiguration.mkDefault) ∧
    (strTruthy ({ proxy := some "http://gateway:3128",
                  cert := some "/certs/ca.pem" } :
        NetworkConfiguration).proxy = true →
      ("http_proxy", "http://gateway:3128") ∈
        [("http_proxy", "http://gateway:3128"),
         ("https_proxy", "http://gateway:3128"),
         ("REQUESTS_CA_BUNDLE", "/certs/ca.pem")] ∧
      ("https_proxy", "http://gateway:3128") ∈
        [("http_proxy", "http://gateway:3128"),
         ("https_proxy", "http://gateway:3128"),
         ("REQUESTS_CA_BUNDLE", "/certs/ca.pem")]) ∧
    (strTruthy ({ proxy := some "http://gateway:3128",
                  cert := some "/certs/ca.pem" } :
        NetworkConfiguration).cert = true →
      ("REQUESTS_CA_BUNDLE", "/certs/ca.pem") ∈
        [("http_proxy", "http://gateway:3128"),
         ("https_proxy", "http://gateway:3128"),
         ("REQUESTS_CA_BUNDLE", "/certs/ca.pem")])) :=
  ⟨by decide, by decide, by rfl,
    C8_theorem (fun s => s) (some ["https://idx/simple"]) none
      { proxy := some "http://gateway:3128", cert := some "/certs/ca.pem" }
      NetworkConfiguration.mkDefault true
      [("http_proxy", "http://gateway:3128"),
       ("https_proxy", "http://gateway:3128"),
       ("REQUESTS_CA_BUNDLE", "/certs/ca.pem")]
      (by decide) (by decide) (by rfl)⟩

/-- C9: the environment `_spawn_pip_isolated` hands the pip subprocess never
contains `PYTHONPATH` (it is popped after patching), and two ambient
environments differing only at `PYTHONPATH` yield identical child
environments, so ambient `PYTHONPATH` cannot influence the invocation. -/
theorem C9_theorem (isStripped : String → Bool)
    (amb1 amb2 : String → Option String)
    (pex_root pex_verbose : String) (extra : List (String × String))
    (h : ∀ k, k ≠ "PYTHONPATH" → amb1 k = amb2 k) :
    spawn_pip_env isStripped amb1 pex_root pex_verbose extra "PYTHONPATH"
        = none ∧
    ∀ k, spawn_pip_env isStripped amb1 pex_root pex_verbose extra k =
      spawn_pip_env isStripped amb2 pex_root pex_verbose extra k := by
  constructor
  · simp [spawn_pip_env]
  · intro k
    by_cases hk : k = "PYTHONPATH"
    · simp [spawn_pip_env, hk]
    · simp [spawn_pip_env, hk, patchEnv, stripAmbientEnv, h k hk]

/-- Witness for C9: two concrete ambient environments differing only at
`PYTHONPATH` are indistinguishable to the spawned pip process. -/
theorem C9_witness :
    (∀ k, k ≠ "PYTHONPATH" →
      (fun q => if q = "PYTHONPATH" then some "/ambient/libs" else none) k =
      (fun _ => (none : Option String)) k) ∧
    spawn_pip_env (fun _ => false)
      (fun q => if q = "PYTHONPATH" then some "/ambient/libs" else none)
      "/pex_root" "0" [] "PYTHONPATH" = none ∧
    ∀ k, spawn_pip_env (fun _ => false)
      (fun q => if q = "PYTHONPATH" then some "/ambient/libs" else none)
      "/pex_root" "0" [] k =
      spawn_pip_env (fun _ => false) (fun _ => none) "/pex_root" "0" [] k := by
  have h : ∀ k, k ≠ "PYTHONPATH" →
      (fun q => if q = "PYTHONPATH" then some "/ambient/libs" else none) k =
      (fun _ => (none : Option String)) k := by
    intro k hk
    simp [hk]
  refine ⟨h, ?_, ?_⟩
  · exact (C9_theorem (fun _ => false) _ _ "/pex_root" "0" [] h).1
  · exact (C9_theorem (fun _ => false) _ _ "/pex_root" "0" [] h).2

theorem observer_contributions_fst (fpo obs : Option DownloadObserver) :
    (observer_contributions fpo obs).1 =
      (match fpo with | some ob => ob.analyzer.toList | none => []) ++
      (match obs with | some ob => ob.analyzer.toList | none => []) := by
  cases fpo <;> cases obs <;> simp [observer_contributions]

theorem toList_eq_nil_iff (o : Option String) :
    o.toList = [] ↔ o.isSome = false := by
  cases o <;> simp [Option.toList]

theorem active_log_analyzers_eq_nil_iff (fpo obs : Option DownloadObserver)
    (pic : Option PackageIndexConfiguration) (d : ResolverVersion) :
    active_log_analyzers fpo obs pic d = [] ↔
      (observerHasAnalyzer fpo = false ∧ observerHasAnalyzer obs = false ∧
       calculate_resolver_version pic d ≠ ResolverVersion.PIP_2020) := by
  unfold active_log_analyzers
  rw [observer_contributions_fst]
  by_cases hrv : calculate_resolver_version pic d = ResolverVersion.PIP_2020 <;>
    cases fpo <;> cases obs <;>
      simp [observerHasAnalyzer, toList_eq_nil_iff, hrv]

/-- C10: a successful `spawn_download_distributions` yields a `LogScrapeJob`
exactly when an observer supplies a log analyzer or the 2020 resolver is in
play; a `LogScrapeJob` carries a `--log` argument in its pip command, the
temp-dir log path, the analyzers and the `preserve_log` flag, while with no
active analyzer a plain `Job` with no log file is returned — so
`preserve_log=True` alone preserves nothing. -/
theorem C10_theorem (r : DownloadRequest) (j : DownloadJob)
    (hok : spawn_download_distributions r = Except.ok j) :
    ((∃ cmd env log la p, j = DownloadJob.logScrape cmd env log la p) ↔
      (observerHasAnalyzer r.foreign_platform_observer = true ∨
       observerHasAnalyzer r.observer = true ∨
       calculate_resolver_version r.package_index_configuration
         r.default_resolver = ResolverVersion.PIP_2020)) ∧
    (∀ cmd env log la p, j = DownloadJob.logScrape cmd env log la p →
      "--log" ∈ cmd ∧ log = r.tmpdir ++ "/pip.log" ∧ p = r.preserve_log ∧
      la = active_log_analyzers r.foreign_platform_observer r.observer
        r.package_index_configuration r.default_resolver ∧ la ≠ []) ∧
    (¬ (observerHasAnalyzer r.foreign_platform_observer = true ∨
        observerHasAnalyzer r.observer = true ∨
        calculate_resolver_version r.package_index_configuration
          r.default_resolver = ResolverVersion.PIP_2020) →
      ∃ cmd env, j = DownloadJob.plain cmd env) := by
  unfold spawn_download_distributions at hok
  by_cases h1 : r.use_wheel = false ∧ r.build = false
  · rw [if_pos h1] at hok; exact absurd hok (by simp)
  · rw [if_neg h1] at hok
    by_cases h2 : r.use_wheel = false ∧ r.target_is_local = false
    · rw [if_pos h2] at hok; exact absurd hok (by simp)
    · rw [if_neg h2] at hok
      by_cases h3 : bothPatched r.foreign_platform_observer r.observer = true
      · rw [if_pos h3] at hok; exact absurd hok (by simp)
      · rw [if_neg h3] at hok
        by_cases h4 : (active_log_analyzers r.foreign_platform_observer
            r.observer r.package_index_configuration
            r.default_resolver).isEmpty = true
        · rw [if_pos h4] at hok
          have hj := Except.ok.inj hok
          subst hj
          have hnil := List.isEmpty_iff.mp h4
          have hno := (active_log_analyzers_eq_nil_iff _ _ _ _).mp hnil
          refine ⟨?_, ?_, ?_⟩
          · constructor
            · rintro ⟨cmd, env, log, la, p, hEq⟩
              exact absurd hEq (by simp)
            · intro hA
              rcases hA with hA | hA | hA
              · rw [hno.1] at hA; exact absurd hA (by simp)
              · rw [hno.2.1] at hA; exact absurd hA (by simp)
              · exact absurd hA hno.2.2
          · intro cmd env log la p hEq
            exact absurd hEq (by simp)
          · intro hnA
            exact ⟨_, _, rfl⟩
        · rw [if_neg h4] at hok
          have hj := Except.ok.inj hok
          subst hj
          have hne : active_log_analyzers r.foreign_platform_observer r.observer
              r.package_index_configuration r.default_resolver ≠ [] := by
            intro hnil
            exact h4 (List.isEmpty_iff.mpr hnil)
          have hA : observerHasAnalyzer r.foreign_platform_observer = true ∨
              observerHasAnalyzer r.observer = true ∨
              calculate_resolver_version r.package_index_configuration
                r.default_resolver = ResolverVersion.PIP_2020 := by
            by_contra hno
            push_neg at hno
            refine hne ((active_log_analyzers_eq_nil_iff _ _ _ _).mpr ?_)
            refine ⟨?_, ?_, hno.2.2⟩
            · cases hb : observerHasAnalyzer r.foreign_platform_observer
              · rfl
              · exact absurd hb hno.1
            · cases hb : observerHasAnalyzer r.observer
              · rfl
              · exact absurd hb hno.2.1
          refine ⟨?_, ?_, ?_⟩
          · exact ⟨fun _ => hA, fun _ => ⟨_, _, _, _, _, rfl⟩⟩
          · intro cmd env log la p hEq
            injection hEq with hc he hl hla hp
            subst hc; subst hl; subst hla; subst hp
            refine ⟨?_, rfl, rfl, rfl, hne⟩
            unfold spawn_pip_isolated_command
            refine List.mem_append.mpr (Or.inl ?_)
            refine List.mem_append.mpr (Or.inr ?_)
            exact List.mem_append.mpr (Or.inl (by simp))
          · intro hnA
            exact absurd hA hnA

/-- Witness for C10 at the default request. -/
theorem C10_witness :
    spawn_download_distributions {} = Except.ok C10_job ∧
    (((∃ cmd env log la p, C10_job = DownloadJob.logScrape cmd env log la p) ↔
        (observerHasAnalyzer
            ({} : DownloadRequest).foreign_platform_observer = true ∨
         observerHasAnalyzer ({} : DownloadRequest).observer = true ∨
         calculate_resolver_version
           ({} : DownloadRequest).package_index_configuration
           ({} : DownloadRequest).default_resolver = ResolverVersion.PIP_2020)) ∧
      (∀ cmd env log la p, C10_job = DownloadJob.logScrape cmd env log la p →
        "--log" ∈ cmd ∧ log = ({} : DownloadRequest).tmpdir ++ "/pip.log" ∧
        p = ({} : DownloadRequest).preserve_log ∧
        la = active_log_analyzers
          ({} : DownloadRequest).foreign_platform_observer
          ({} : DownloadRequest).observer
          ({} : DownloadRequest).package_index_configuration
          ({} : DownloadRequest).default_resolver ∧ la ≠ []) ∧
      (¬ (observerHasAnalyzer
            ({} : DownloadRequest).foreign_platform_observer = true ∨
          observerHasAnalyzer ({} : DownloadRequest).observer = true ∨
          calculate_resolver_version
            ({} : DownloadRequest).package_index_configuration
            ({} : DownloadRequest).default_resolver
              = ResolverVersion.PIP_2020) →
        ∃ cmd env, C10_job = DownloadJob.plain cmd env)) :=
  ⟨by rfl, C10_theorem {} C10_job (by rfl)⟩
